import Mathlib

/-!
Verification of the poll–dedup–deliver cycle of `ed_poll.py` (EdSlackPoster).

The Python code is shallowly embedded: JSON/Python values become the inductive
`PyJson`; Python exceptions become the `Except PyErr` monad; the state file on
disk becomes `FileContent`; the external HTTP calls (`request_json`,
`requests.post`) are parameters (the parsed response, resp. a per-item success
oracle for the Slack webhook).  Pure control flow — `load_state`, `save_state`,
the response-shape handling of `fetch_latest_threads`, and `poll_once` — is
translated statement by statement from `src/ed_poll.py`.
-/

namespace EdPoll

/-- A Python/JSON value, as produced by `json.load` / `r.json()`.
Python `bool` is kept separate from `int` even though it is an `int` subtype;
the helpers below treat it as `0`/`1` exactly where Python would. -/
inductive PyJson where
  | null
  | bool (b : Bool)
  | int (n : Int)
  | str (s : String)
  | arr (l : List PyJson)
  | obj (m : List (String × PyJson))

/-- The Python exceptions this code can raise. -/
inductive PyErr where
  | attributeError
  | typeError
  | valueError
  | keyError
  | runtimeError
deriving DecidableEq

/-- Python truthiness (`bool(x)`), for `or` fallbacks and `if not x` tests. -/
def PyJson.truthy : PyJson → Bool
  | .null => false
  | .bool b => b
  | .int n => n != 0
  | .str s => !s.isEmpty
  | .arr l => !l.isEmpty
  | .obj m => !m.isEmpty

/-- First binding of key `k` in an association list (Python `dict` lookup:
keys in a parsed dict are unique, so first match is the binding). -/
def assocFind (m : List (String × PyJson)) (k : String) : Option PyJson :=
  match m with
  | [] => none
  | (k', v) :: rest => if k' = k then some v else assocFind rest k

/-- Python `d[k] = v` on a dict: replaces in place, or appends (insertion
order) when the key is new. -/
def assocSet (m : List (String × PyJson)) (k : String) (v : PyJson) :
    List (String × PyJson) :=
  match m with
  | [] => [(k, v)]
  | (k', v') :: rest =>
      if k' = k then (k', v) :: rest else (k', v') :: assocSet rest k v

/-- Python `x.get(k)`: `None` for a missing key, `AttributeError` when `x`
is not a dict. -/
def pyGet (x : PyJson) (k : String) : Except PyErr PyJson :=
  match x with
  | .obj m => .ok ((assocFind m k).getD .null)
  | _ => .error .attributeError

/-- Python `x[k]` on a dict: `KeyError` when absent, `TypeError` when `x`
does not support string indexing. -/
def pyGetItem (x : PyJson) (k : String) : Except PyErr PyJson :=
  match x with
  | .obj m =>
      match assocFind m k with
      | some v => .ok v
      | none => .error .keyError
  | _ => .error .typeError

/-- Python `x[k] = v`: `TypeError` unless `x` is a dict. -/
def pySetItem (x : PyJson) (k : String) (v : PyJson) : Except PyErr PyJson :=
  match x with
  | .obj m => .ok (.obj (assocSet m k v))
  | _ => .error .typeError

/-- Python `k in x` for a string `k`: key test on dicts, membership on lists,
substring test on strings, `TypeError` otherwise. -/
def pyContains (x : PyJson) (k : String) : Except PyErr Bool :=
  match x with
  | .obj m => .ok (assocFind m k).isSome
  | .arr l => .ok (l.any fun e => match e with | .str s => s = k | _ => false)
  | .str s => .ok (decide (k.toList <:+: s.toList))
  | _ => .error .typeError

/-- Python `int(x)`: identity on ints, `0`/`1` on bools, decimal parse on
strings (plain sign-and-digits forms; `ValueError` otherwise), `TypeError`
on everything else. -/
def pyInt (x : PyJson) : Except PyErr Int :=
  match x with
  | .int n => .ok n
  | .bool b => .ok (if b then 1 else 0)
  | .str s =>
      match s.toInt? with
      | some n => .ok n
      | none => .error .valueError
  | _ => .error .typeError

/-- Python `for e in x`: the element sequence of lists, the characters of a
string, the keys of a dict; `TypeError` on non-iterables. -/
def pyIter (x : PyJson) : Except PyErr (List PyJson) :=
  match x with
  | .arr l => .ok l
  | .str s => .ok (s.toList.map fun c => .str c.toString)
  | .obj m => .ok (m.map fun p => .str p.1)
  | _ => .error .typeError

/-- The content of the state file: absent, unreadable (an open or
`json.load` failure — both land in the same `except` branch), or a parsed
JSON value. -/
inductive FileContent where
  | missing
  | unreadable
  | parsed (j : PyJson)

/-- The state `load_state` returns when no file exists. -/
def zeroState : PyJson :=
  .obj [("last_seen_id", .int 0), ("last_run_utc", .null)]

/-- The state `load_state` returns from its `except` branch. -/
def warnState : PyJson :=
  .obj [("last_seen_id", .int 0), ("last_run_utc", .null),
        ("warning", .str "state file unreadable; reset state")]

/-- `load_state` (ed_poll.py lines 104–119).  The whole body after the
existence check sits in a `try`, so any exception from the key test or the
assignment also yields the warning state; the function itself never raises. -/
def load_state (file : FileContent) : PyJson :=
  match file with
  | .missing => zeroState
  | .unreadable => warnState
  | .parsed data =>
      match (do
        let c ← pyContains data "last_seen_id"
        if c then pure data else pySetItem data "last_seen_id" (.int 0) :
          Except PyErr PyJson) with
      | .ok st => st
      | .error _ => warnState

/-- `save_state` (lines 122–129): write temp file, then `os.replace` — the
file afterwards holds exactly the dumped state. -/
def save_state (st : PyJson) : FileContent := .parsed st

/-- The response-shape handling of `fetch_latest_threads` (lines 141–147),
given the parsed body `request_json` returned (or the exception it raised).
`threads = data.get("threads")`; if that is not a list,
`threads = (data.get("data") or {}).get("threads") or []`; finally keep only
the dict elements. -/
def fetch_latest_threads (resp : Except PyErr PyJson) :
    Except PyErr (List PyJson) := do
  let data ← resp
  let threads ← pyGet data "threads"
  let threads ←
    match threads with
    | .arr l => pure (PyJson.arr l)
    | _ => do
        let d ← pyGet data "data"
        let d := if d.truthy then d else .obj []
        let t ← pyGet d "threads"
        pure (if t.truthy then t else .arr [])
  let elems ← pyIter threads
  pure (elems.filter fun e => match e with | .obj _ => true | _ => false)

/-- `isinstance(d.get("id"), int)` together with the value of `d["id"]` as an
integer: `some` exactly when `d` is a dict whose `"id"` is an int (or a bool,
which Python counts as an int). -/
def candidateId (d : PyJson) : Option Int :=
  match d with
  | .obj m =>
      match assocFind m "id" with
      | some (.int n) => some n
      | some (.bool b) => some (if b then 1 else 0)
      | _ => none
  | _ => none

/-- The sort key `lambda d: d["id"]` on candidate posts (where it never
raises): `candidateId` with a default that is never used on candidates. -/
def keyId (d : PyJson) : Int := (candidateId d).getD 0

/-- Key comparison used by the stable sort. -/
def idLE (a b : PyJson) : Prop := keyId a ≤ keyId b

instance : DecidableRel idLE := fun a b =>
  inferInstanceAs (Decidable (keyId a ≤ keyId b))

instance : IsTotal PyJson idLE := ⟨fun a b => Int.le_total (keyId a) (keyId b)⟩

instance : IsTrans PyJson idLE := ⟨fun _ _ _ h h' => le_trans h h'⟩

/-- `new_posts.sort(key=lambda d: d["id"])`: Python `list.sort` is a stable
ascending sort by key, and any two stable sorts by the same key coincide, so
insertion sort models it exactly. -/
def sortById (l : List PyJson) : List PyJson := List.insertionSort idLE l

/-- Python list slicing `l[:k]` with an `int` bound: a nonnegative bound
takes a prefix; a negative bound means `max(0, len(l) + k)`. -/
def pySlice (l : List PyJson) (k : Int) : List PyJson :=
  if 0 ≤ k then l.take k.toNat else l.take (l.length - (-k).toNat)

/-- Lines 180–181: candidate filter (`isinstance(d.get("id"), int)`) followed
by the cursor filter (`d["id"] > last_seen_id`). -/
def qualifying (lastSeen : Int) (threads : List PyJson) : List PyJson :=
  (threads.filter fun d => (candidateId d).isSome).filter
    fun d => decide (lastSeen < keyId d)

/-- Lines 180–187: candidate filter, cursor filter, stable ascending sort,
safety cap. -/
def selectPosts (lastSeen : Int) (maxPosts : Int) (threads : List PyJson) :
    List PyJson :=
  pySlice (sortById (qualifying lastSeen threads)) maxPosts

/-- `int(state.get("last_seen_id") or 0)` (line 175). -/
def stateLastSeen (st : PyJson) : Except PyErr Int := do
  let v ← pyGet st "last_seen_id"
  pyInt (if v.truthy then v else .int 0)

/-- `int(d["id"])` as evaluated inside the delivery loop (line 206). -/
def pyItemId (d : PyJson) : Except PyErr Int := do
  let v ← pyGetItem d "id"
  pyInt v

/-- `format_slack_message` (lines 48–73), with the message text abstracted
away (no claim mentions it): what is kept is exactly its control flow and
exception behavior on the embedded values.  The `.get` calls and the
short-circuiting `or` chains are translated one by one; on a dict argument
the only step that can raise is the author lookup
`(d.get("user") or {}).get("name") or (d.get("author") or {}).get("name")`:
a truthy non-dict under `"user"` — or, when the first lookup is falsy,
under `"author"` — raises `AttributeError`.  The trailing `int(did)` runs
only under `isinstance(did, int)` and cannot raise, and f-string rendering
never raises. -/
def format_slack_message (d : PyJson) : Except PyErr Unit := do
  let _did ← pyGet d "id"
  let t ← pyGet d "title"
  let _sub ← if t.truthy then pure PyJson.null else pyGet d "subject"
  let _created ← pyGet d "created_at"
  let u ← pyGet d "user"
  let a1 ← pyGet (if u.truthy then u else .obj []) "name"
  if a1.truthy then pure ()
  else do
    let au ← pyGet d "author"
    let _a2 ← pyGet (if au.truthy then au else .obj []) "name"
    pure ()

/-- Result of the delivery loop (lines 195–206): messages printed to stdout,
messages posted to Slack, the `posted` counter, the running `max_id`, and the
exception that aborted the loop, if any. -/
structure LoopOut where
  printed : List PyJson
  sent : List PyJson
  posted : Nat
  maxId : Int
  err : Option PyErr

/-- The delivery loop.  Each iteration first runs `format_slack_message`
(line 196), whose exception aborts the loop before anything is printed or
posted; `printMode` is `args.dry_run or not webhook_url` (line 198);
`sinkOk d` tells whether `post_to_slack` succeeds for the message built from
`d` (lines 150–156: a non-2xx response raises `RuntimeError`).  A raised
exception aborts the loop; the items already emitted stay emitted. -/
def runLoop (printMode : Bool) (sinkOk : PyJson → Bool) :
    List PyJson → Nat → Int → LoopOut
  | [], posted, maxId => ⟨[], [], posted, maxId, none⟩
  | d :: rest, posted, maxId =>
      match format_slack_message d with
      | .error e => ⟨[], [], posted, maxId, some e⟩
      | .ok _ =>
          if printMode then
            match pyItemId d with
            | .error e => ⟨[d], [], posted + 1, maxId, some e⟩
            | .ok i =>
                let r := runLoop printMode sinkOk rest (posted + 1)
                  (max maxId i)
                ⟨d :: r.printed, r.sent, r.posted, r.maxId, r.err⟩
          else
            if sinkOk d then
              match pyItemId d with
              | .error e => ⟨[], [d], posted + 1, maxId, some e⟩
              | .ok i =>
                  let r := runLoop printMode sinkOk rest (posted + 1)
                    (max maxId i)
                  ⟨r.printed, d :: r.sent, r.posted, r.maxId, r.err⟩
            else ⟨[], [], posted, maxId, some .runtimeError⟩

/-- The running `max_id` after the loop processes `l` starting from `m`
(line 206 iterated). -/
def foldMax (l : List PyJson) (m : Int) : Int :=
  l.foldl (fun a d => max a (keyId d)) m

/-- Observable outcome of one `poll_once` call: returned count or raised
exception, the messages printed and the messages posted (in order), whether
`save_state` ran, and the state file afterwards. -/
structure PollOutcome where
  result : Except PyErr Nat
  printed : List PyJson
  sent : List PyJson
  saved : Bool
  file : FileContent

/-- The commit tail of `poll_once` (lines 208–213) after the delivery loop
produced `r`: on a loop exception the error propagates and nothing is saved;
otherwise, unless in dry-run mode, the loaded `state` dict is updated
(`last_seen_id`, `last_run_utc`) and written by `save_state`. -/
def runLoopEnd (dryRun : Bool) (r : LoopOut) (state : PyJson) (now : String)
    (file : FileContent) : PollOutcome :=
  match r.err with
  | some e => ⟨.error e, r.printed, r.sent, false, file⟩
  | none =>
      if !dryRun then
        match pySetItem state "last_seen_id" (.int r.maxId) with
        | .error e => ⟨.error e, r.printed, r.sent, false, file⟩
        | .ok st1 =>
            match pySetItem st1 "last_run_utc" (.str now) with
            | .error e => ⟨.error e, r.printed, r.sent, false, file⟩
            | .ok st2 =>
                ⟨.ok r.posted, r.printed, r.sent, true, save_state st2⟩
      else ⟨.ok r.posted, r.printed, r.sent, false, file⟩

/-- `os.getenv` truthiness: `if not token` is true for an unset or empty
variable. -/
def envSet : Option String → Bool
  | none => false
  | some s => !s.isEmpty

/-- `poll_once` (lines 163–213), translated statement by statement.
`token` and `webhook` are the two environment variables; `resp` is what
`request_json` produced for the GET (parsed body or raised error); `sinkOk`
is the webhook success oracle; `now` is `iso_now_utc()`; `file` is the state
file. -/
def poll_once (dryRun : Bool) (maxPosts : Int) (token webhook : Option String)
    (resp : Except PyErr PyJson) (sinkOk : PyJson → Bool) (now : String)
    (file : FileContent) : PollOutcome :=
  if !envSet token then ⟨.error .runtimeError, [], [], false, file⟩
  else
    let state := load_state file
    match stateLastSeen state with
    | .error e => ⟨.error e, [], [], false, file⟩
    | .ok last_seen_id =>
        match fetch_latest_threads resp with
        | .error e => ⟨.error e, [], [], false, file⟩
        | .ok threads =>
            let new_posts := selectPosts last_seen_id maxPosts threads
            if new_posts.isEmpty then ⟨.ok 0, [], [], false, file⟩
            else
              let printMode := dryRun || !envSet webhook
              runLoopEnd dryRun
                (runLoop printMode sinkOk new_posts 0 last_seen_id)
                state now file

/-- One cycle's external inputs: the fetch response, the webhook oracle,
and the wall-clock string. -/
structure CycleInput where
  resp : Except PyErr PyJson
  sinkOk : PyJson → Bool
  now : String

/-- The state file after a sequence of `poll_once` cycles (the scheduler
loop, lines 243–249, from the state file's point of view). -/
def poll_cycles (dryRun : Bool) (maxPosts : Int) (token webhook : Option String)
    (inputs : List CycleInput) (file : FileContent) : FileContent :=
  match inputs with
  | [] => file
  | c :: rest =>
      poll_cycles dryRun maxPosts token webhook rest
        (poll_once dryRun maxPosts token webhook c.resp c.sinkOk c.now
          file).file

/-- Concrete thread dict used in witness runs. -/
def sampleThread (i : Int) : PyJson :=
  .obj [("id", .int i), ("title", .str "t")]

/-- Concrete fetch body used in witness runs: the spec's scenario, fetched
ids `[3, 6, 8, 7]`. -/
def sampleBody : PyJson :=
  .obj [("threads",
    .arr [sampleThread 3, sampleThread 6, sampleThread 8, sampleThread 7])]

/-- Concrete state file used in witness runs: cursor at 5. -/
def sampleFile : FileContent :=
  .parsed (.obj [("last_seen_id", .int 5), ("last_run_utc", .null)])

/-! ### Helper lemmas -/

theorem exceptOkBind {α β : Type} (x : α) (f : α → Except PyErr β) :
    (Except.ok x >>= f) = f x := rfl

theorem exceptErrBind {α β : Type} (e : PyErr) (f : α → Except PyErr β) :
    ((Except.error e : Except PyErr α) >>= f) = .error e := rfl

theorem assocFind_assocSet_self (m : List (String × PyJson)) (k : String)
    (v : PyJson) : assocFind (assocSet m k v) k = some v := by
  induction m with
  | nil => simp [assocSet, assocFind]
  | cons p rest ih =>
      by_cases h : p.1 = k
      · simp [assocSet, assocFind, h]
      · simp [assocSet, assocFind, h, ih]

theorem assocFind_assocSet_ne (m : List (String × PyJson)) (k k' : String)
    (v : PyJson) (h : k' ≠ k) :
    assocFind (assocSet m k v) k' = assocFind m k' := by
  induction m with
  | nil => simp [assocSet, assocFind, Ne.symm h]
  | cons p rest ih =>
      by_cases hp : p.1 = k
      · subst hp
        simp [assocSet, assocFind, Ne.symm h]
      · simp only [assocSet, if_neg hp, assocFind]
        by_cases hp' : p.1 = k' <;> simp [hp', ih]

theorem stateLastSeen_saved (m : List (String × PyJson)) (i : Int)
    (now : String) :
    stateLastSeen (.obj (assocSet (assocSet m "last_seen_id" (.int i))
      "last_run_utc" (.str now))) = .ok i := by
  have h1 : assocFind (assocSet (assocSet m "last_seen_id" (.int i))
      "last_run_utc" (.str now)) "last_seen_id" = some (.int i) := by
    rw [assocFind_assocSet_ne _ _ _ _ (by decide), assocFind_assocSet_self]
  simp only [stateLastSeen, pyGet, h1, Option.getD_some, exceptOkBind]
  by_cases hi : i = 0
  · subst hi; simp [PyJson.truthy, pyInt]
  · simp [PyJson.truthy, hi, pyInt]

theorem stateLastSeen_obj {st : PyJson} {n : Int}
    (h : stateLastSeen st = .ok n) : ∃ m, st = .obj m := by
  cases st <;> simp_all [stateLastSeen, pyGet, exceptOkBind, exceptErrBind]

theorem candidateId_pyItemId {d : PyJson} {i : Int}
    (h : candidateId d = some i) : pyItemId d = .ok i := by
  cases d with
  | obj m =>
      simp only [candidateId] at h
      cases hf : assocFind m "id" with
      | none => rw [hf] at h; exact absurd h (by simp)
      | some v =>
          rw [hf] at h
          cases v <;>
            simp_all [pyItemId, pyGetItem, pyInt, exceptOkBind, exceptErrBind]
  | _ => exact absurd h (by simp [candidateId])

theorem keyId_of_candidateId {d : PyJson} {i : Int}
    (h : candidateId d = some i) : keyId d = i := by
  simp [keyId, h]

theorem mem_qualifying {d : PyJson} {n : Int} {threads : List PyJson} :
    d ∈ qualifying n threads ↔
      d ∈ threads ∧ (candidateId d).isSome ∧ n < keyId d := by
  constructor
  · intro h
    have h2 := List.mem_filter.mp h
    have h1 := List.mem_filter.mp h2.1
    exact ⟨h1.1, h1.2, by simpa using h2.2⟩
  · rintro ⟨h1, h2, h3⟩
    exact List.mem_filter.mpr ⟨List.mem_filter.mpr ⟨h1, h2⟩, by simpa using h3⟩

theorem sortById_perm (l : List PyJson) : List.Perm (sortById l) l :=
  List.perm_insertionSort idLE l

theorem sortById_sorted (l : List PyJson) : (sortById l).Sorted idLE :=
  List.sorted_insertionSort idLE l

theorem pySlice_nonneg (l : List PyJson) {k : Int} (h : 0 ≤ k) :
    pySlice l k = l.take k.toNat := by
  simp [pySlice, h]

theorem pySlice_sublist (l : List PyJson) (k : Int) :
    List.Sublist (pySlice l k) l := by
  unfold pySlice
  split <;> exact List.take_sublist _ _

theorem mem_selectPosts {d : PyJson} {n c : Int} {threads : List PyJson}
    (h : d ∈ selectPosts n c threads) : d ∈ qualifying n threads := by
  have h1 : d ∈ sortById (qualifying n threads) :=
    (pySlice_sublist _ _).mem h
  exact (sortById_perm _).mem_iff.mp h1

theorem selectPosts_pyItemId {d : PyJson} {n c : Int} {threads : List PyJson}
    (h : d ∈ selectPosts n c threads) : pyItemId d = .ok (keyId d) := by
  obtain ⟨-, hs, -⟩ := mem_qualifying.mp (mem_selectPosts h)
  obtain ⟨i, hi⟩ := Option.isSome_iff_exists.mp hs
  rw [keyId_of_candidateId hi]
  exact candidateId_pyItemId hi

theorem selectPosts_gt {d : PyJson} {n c : Int} {threads : List PyJson}
    (h : d ∈ selectPosts n c threads) : n < keyId d :=
  (mem_qualifying.mp (mem_selectPosts h)).2.2

theorem le_foldMax (l : List PyJson) (m : Int) : m ≤ foldMax l m := by
  induction l generalizing m with
  | nil => simp [foldMax]
  | cons d rest ih =>
      calc m ≤ max m (keyId d) := le_max_left _ _
        _ ≤ foldMax rest (max m (keyId d)) := ih _
        _ = foldMax (d :: rest) m := rfl

theorem foldMax_ge (l : List PyJson) (m : Int) :
    ∀ d ∈ l, keyId d ≤ foldMax l m := by
  induction l generalizing m with
  | nil => simp
  | cons a rest ih =>
      intro d hd
      rcases List.mem_cons.mp hd with h | h
      · subst h
        calc keyId d ≤ max m (keyId d) := le_max_right _ _
          _ ≤ foldMax rest (max m (keyId d)) := le_foldMax _ _
          _ = foldMax (d :: rest) m := rfl
      · exact ih (max m (keyId a)) d h

theorem foldMax_eq_or_mem (l : List PyJson) (m : Int) :
    foldMax l m = m ∨ ∃ d ∈ l, foldMax l m = keyId d := by
  induction l generalizing m with
  | nil => exact Or.inl rfl
  | cons a rest ih =>
      have : foldMax (a :: rest) m = foldMax rest (max m (keyId a)) := rfl
      rw [this]
      rcases ih (max m (keyId a)) with h | ⟨d, hd, he⟩
      · rcases max_choice m (keyId a) with hm | hm
        · exact Or.inl (h.trans hm)
        · exact Or.inr ⟨a, List.mem_cons_self _ _, h.trans hm⟩
      · exact Or.inr ⟨d, List.mem_cons_of_mem _ hd, he⟩

theorem runLoop_maxId_le (pm : Bool) (sinkOk : PyJson → Bool)
    (items : List PyJson) (p : Nat) (m : Int) :
    m ≤ (runLoop pm sinkOk items p m).maxId := by
  induction items generalizing p m with
  | nil => simp [runLoop]
  | cons d rest ih =>
      cases hf : format_slack_message d with
      | error e => simp [runLoop, hf]
      | ok u =>
          simp only [runLoop, hf]
          split
          · cases h : pyItemId d with
            | error e => simp
            | ok i =>
                simp only
                exact (le_max_left m i).trans (ih _ _)
          · split
            · cases h : pyItemId d with
              | error e => simp
              | ok i =>
                  simp only
                  exact (le_max_left m i).trans (ih _ _)
            · simp

theorem runLoop_sublists (pm : Bool) (sinkOk : PyJson → Bool)
    (items : List PyJson) (p : Nat) (m : Int) :
    List.Sublist (runLoop pm sinkOk items p m).sent items ∧
      List.Sublist (runLoop pm sinkOk items p m).printed items := by
  induction items generalizing p m with
  | nil => simp [runLoop]
  | cons d rest ih =>
      cases hf : format_slack_message d with
      | error e =>
          simp only [runLoop, hf]
          exact ⟨List.nil_sublist _, List.nil_sublist _⟩
      | ok u =>
          simp only [runLoop, hf]
          split
          · cases h : pyItemId d with
            | error e =>
                exact ⟨List.nil_sublist _, (List.nil_sublist _).cons₂ _⟩
            | ok i =>
                exact ⟨(ih _ _).1.cons _, ((ih _ _).2).cons₂ _⟩
          · split
            · cases h : pyItemId d with
              | error e =>
                  exact ⟨(List.nil_sublist _).cons₂ _, List.nil_sublist _⟩
              | ok i => exact ⟨((ih _ _).1).cons₂ _, (ih _ _).2.cons _⟩
            · exact ⟨List.nil_sublist _, List.nil_sublist _⟩

theorem runLoop_slack_ok (sinkOk : PyJson → Bool) (items : List PyJson)
    (p : Nat) (m : Int)
    (hfmt : ∀ d ∈ items, format_slack_message d = .ok ())
    (hok : ∀ d ∈ items, sinkOk d = true)
    (hid : ∀ d ∈ items, pyItemId d = .ok (keyId d)) :
    runLoop false sinkOk items p m =
      ⟨[], items, p + items.length, foldMax items m, none⟩ := by
  induction items generalizing p m with
  | nil => simp [runLoop, foldMax]
  | cons d rest ih =>
      have hd := hid d (List.mem_cons_self _ _)
      simp only [runLoop, hfmt d (List.mem_cons_self _ _),
        Bool.false_eq_true, if_false,
        hok d (List.mem_cons_self _ _), if_true, hd]
      rw [ih (p + 1) (max m (keyId d))
        (fun x hx => hfmt x (List.mem_cons_of_mem _ hx))
        (fun x hx => hok x (List.mem_cons_of_mem _ hx))
        (fun x hx => hid x (List.mem_cons_of_mem _ hx))]
      simp only [foldMax, List.foldl_cons, List.length_cons,
        LoopOut.mk.injEq]
      exact ⟨trivial, trivial, by omega, trivial, trivial⟩

theorem runLoop_print_ok (pm : Bool) (sinkOk : PyJson → Bool)
    (items : List PyJson) (p : Nat) (m : Int) (hpm : pm = true)
    (hfmt : ∀ d ∈ items, format_slack_message d = .ok ())
    (hid : ∀ d ∈ items, pyItemId d = .ok (keyId d)) :
    runLoop pm sinkOk items p m =
      ⟨items, [], p + items.length, foldMax items m, none⟩ := by
  subst hpm
  induction items generalizing p m with
  | nil => simp [runLoop, foldMax]
  | cons d rest ih =>
      have hd := hid d (List.mem_cons_self _ _)
      simp only [runLoop, hfmt d (List.mem_cons_self _ _), if_true, hd]
      rw [ih (p + 1) (max m (keyId d))
        (fun x hx => hfmt x (List.mem_cons_of_mem _ hx))
        (fun x hx => hid x (List.mem_cons_of_mem _ hx))]
      simp only [foldMax, List.foldl_cons, List.length_cons,
        LoopOut.mk.injEq]
      exact ⟨trivial, trivial, by omega, trivial, trivial⟩

theorem runLoop_slack_fail (sinkOk : PyJson → Bool) (items : List PyJson)
    (p : Nat) (m : Int)
    (hfmt : ∀ d ∈ items, format_slack_message d = .ok ())
    (hid : ∀ d ∈ items, pyItemId d = .ok (keyId d))
    (hfail : ∃ d ∈ items, sinkOk d = false) :
    runLoop false sinkOk items p m =
      ⟨[], items.takeWhile sinkOk, p + (items.takeWhile sinkOk).length,
        foldMax (items.takeWhile sinkOk) m, some .runtimeError⟩ := by
  induction items generalizing p m with
  | nil => exact absurd hfail (by simp)
  | cons d rest ih =>
      have hf := hfmt d (List.mem_cons_self _ _)
      cases hok : sinkOk d with
      | false =>
          simp only [runLoop, hf, Bool.false_eq_true, if_false, hok]
          simp [List.takeWhile, hok, foldMax]
      | true =>
          have hd := hid d (List.mem_cons_self _ _)
          have hfail' : ∃ x ∈ rest, sinkOk x = false := by
            rcases hfail with ⟨x, hx, hxf⟩
            rcases List.mem_cons.mp hx with h | h
            · subst h; rw [hok] at hxf; exact absurd hxf (by simp)
            · exact ⟨x, h, hxf⟩
          simp only [runLoop, hf, Bool.false_eq_true, if_false, hok,
            if_true, hd]
          rw [ih (p + 1) (max m (keyId d))
            (fun x hx => hfmt x (List.mem_cons_of_mem _ hx))
            (fun x hx => hid x (List.mem_cons_of_mem _ hx)) hfail']
          simp only [List.takeWhile_cons, hok, if_true, foldMax,
            List.foldl_cons, List.length_cons, LoopOut.mk.injEq]
          exact ⟨trivial, trivial, by omega, trivial, trivial⟩

theorem filter_map_keyId (threads : List PyJson) :
    ((threads.filter fun d => (candidateId d).isSome).map keyId) =
      threads.filterMap candidateId := by
  induction threads with
  | nil => rfl
  | cons d rest ih =>
      cases h : candidateId d with
      | none => simp [List.filter_cons, List.filterMap_cons, h, ih]
      | some i => simp [List.filter_cons, List.filterMap_cons, h, ih, keyId]

theorem qualifying_keys_sublist (n : Int) (threads : List PyJson) :
    List.Sublist ((qualifying n threads).map keyId)
      (threads.filterMap candidateId) := by
  rw [← filter_map_keyId]
  exact (List.filter_sublist _).map keyId

theorem pairwise_lt_of_sorted_nodup {l : List PyJson}
    (hs : l.Sorted idLE) (hnd : (l.map keyId).Nodup) :
    l.Pairwise fun a b => keyId a < keyId b := by
  have hne : l.Pairwise fun a b => keyId a ≠ keyId b :=
    (List.pairwise_map).mp hnd
  exact (hs.and hne).imp fun h => lt_of_le_of_ne h.1 h.2

theorem sortById_keys_nodup {l : List PyJson}
    (h : (l.map keyId).Nodup) : ((sortById l).map keyId).Nodup :=
  (((sortById_perm l).map keyId).nodup_iff).mpr h

theorem take_le_drop {l : List PyJson} {k : Nat}
    (hs : l.Sorted idLE) :
    ∀ a ∈ l.take k, ∀ b ∈ l.drop k, keyId a ≤ keyId b := by
  have h := hs
  rw [← List.take_append_drop k l, List.Sorted, List.pairwise_append] at h
  exact h.2.2

theorem poll_once_run (dryRun : Bool) (maxPosts : Int)
    (token webhook : Option String) (resp : Except PyErr PyJson)
    (sinkOk : PyJson → Bool) (now : String) (file : FileContent)
    (n : Int) (threads : List PyJson)
    (htok : envSet token = true)
    (hn : stateLastSeen (load_state file) = .ok n)
    (hth : fetch_latest_threads resp = .ok threads) :
    poll_once dryRun maxPosts token webhook resp sinkOk now file =
      (if (selectPosts n maxPosts threads).isEmpty then
        ⟨.ok 0, [], [], false, file⟩
      else
        runLoopEnd dryRun
          (runLoop (dryRun || !envSet webhook) sinkOk
            (selectPosts n maxPosts threads) 0 n)
          (load_state file) now file) := by
  simp only [poll_once, htok, hn, hth, Bool.not_true,
    Bool.false_eq_true, if_false]

theorem poll_once_sent_printed (dryRun : Bool) (maxPosts : Int)
    (token webhook : Option String) (resp : Except PyErr PyJson)
    (sinkOk : PyJson → Bool) (now : String) (file : FileContent)
    (n : Int) (threads : List PyJson)
    (htok : envSet token = true)
    (hn : stateLastSeen (load_state file) = .ok n)
    (hth : fetch_latest_threads resp = .ok threads) :
    (poll_once dryRun maxPosts token webhook resp sinkOk now file).sent =
      (runLoop (dryRun || !envSet webhook) sinkOk
        (selectPosts n maxPosts threads) 0 n).sent ∧
    (poll_once dryRun maxPosts token webhook resp sinkOk now file).printed =
      (runLoop (dryRun || !envSet webhook) sinkOk
        (selectPosts n maxPosts threads) 0 n).printed := by
  rw [poll_once_run dryRun maxPosts token webhook resp sinkOk now file n
    threads htok hn hth]
  by_cases he : (selectPosts n maxPosts threads).isEmpty = true
  · rw [if_pos he, List.isEmpty_iff.mp he]
    simp [runLoop]
  · rw [if_neg he]
    unfold runLoopEnd
    repeat' split
    all_goals exact ⟨rfl, rfl⟩

/-- The token check fails: nothing is delivered and the file is unchanged. -/
theorem poll_once_no_token (dryRun : Bool) (maxPosts : Int)
    (token webhook : Option String) (resp : Except PyErr PyJson)
    (sinkOk : PyJson → Bool) (now : String) (file : FileContent)
    (htok : envSet token = false) :
    poll_once dryRun maxPosts token webhook resp sinkOk now file =
      ⟨.error .runtimeError, [], [], false, file⟩ := by
  simp [poll_once, htok]

theorem runLoopEnd_dry_frame (r : LoopOut) (state : PyJson) (now : String)
    (file : FileContent) :
    (runLoopEnd true r state now file).saved = false ∧
      (runLoopEnd true r state now file).file = file := by
  unfold runLoopEnd
  repeat' split
  all_goals first
  | exact ⟨rfl, rfl⟩
  | simp_all

theorem runLoopEnd_save (r : LoopOut) (m : List (String × PyJson))
    (now : String) (file : FileContent) (hr : r.err = none) :
    runLoopEnd false r (.obj m) now file =
      ⟨.ok r.posted, r.printed, r.sent, true,
        .parsed (.obj (assocSet (assocSet m "last_seen_id" (.int r.maxId))
          "last_run_utc" (.str now)))⟩ := by
  simp [runLoopEnd, hr, pySetItem, save_state]

theorem runLoopEnd_err (dryRun : Bool) (r : LoopOut) (state : PyJson)
    (now : String) (file : FileContent) (e : PyErr) (hr : r.err = some e) :
    runLoopEnd dryRun r state now file =
      ⟨.error e, r.printed, r.sent, false, file⟩ := by
  simp [runLoopEnd, hr]

theorem runLoopEnd_dry_ok (r : LoopOut) (state : PyJson) (now : String)
    (file : FileContent) (hr : r.err = none) :
    runLoopEnd true r state now file =
      ⟨.ok r.posted, r.printed, r.sent, false, file⟩ := by
  simp [runLoopEnd, hr]

theorem poll_once_state_error (dryRun : Bool) (maxPosts : Int)
    (token webhook : Option String) (resp : Except PyErr PyJson)
    (sinkOk : PyJson → Bool) (now : String) (file : FileContent) (e : PyErr)
    (htok : envSet token = true)
    (hst : stateLastSeen (load_state file) = .error e) :
    poll_once dryRun maxPosts token webhook resp sinkOk now file =
      ⟨.error e, [], [], false, file⟩ := by
  simp only [poll_once, htok, hst, Bool.not_true, Bool.false_eq_true,
    if_false]

theorem poll_once_fetch_error (dryRun : Bool) (maxPosts : Int)
    (token webhook : Option String) (resp : Except PyErr PyJson)
    (sinkOk : PyJson → Bool) (now : String) (file : FileContent)
    (n : Int) (e : PyErr)
    (htok : envSet token = true)
    (hn : stateLastSeen (load_state file) = .ok n)
    (hth : fetch_latest_threads resp = .error e) :
    poll_once dryRun maxPosts token webhook resp sinkOk now file =
      ⟨.error e, [], [], false, file⟩ := by
  simp only [poll_once, htok, hn, hth, Bool.not_true, Bool.false_eq_true,
    if_false]

/-- A dry-run cycle never saves and leaves the state file untouched,
whatever happens inside it. -/
theorem poll_once_dry_frame (maxPosts : Int) (token webhook : Option String)
    (resp : Except PyErr PyJson) (sinkOk : PyJson → Bool) (now : String)
    (f : FileContent) :
    (poll_once true maxPosts token webhook resp sinkOk now f).saved = false ∧
    (poll_once true maxPosts token webhook resp sinkOk now f).file = f := by
  cases htok : envSet token with
  | false =>
      rw [poll_once_no_token true maxPosts token webhook resp sinkOk now f
        htok]
      exact ⟨rfl, rfl⟩
  | true =>
      cases hst : stateLastSeen (load_state f) with
      | error e =>
          rw [poll_once_state_error true maxPosts token webhook resp sinkOk
            now f e htok hst]
          exact ⟨rfl, rfl⟩
      | ok n =>
          cases hth : fetch_latest_threads resp with
          | error e =>
              rw [poll_once_fetch_error true maxPosts token webhook resp
                sinkOk now f n e htok hst hth]
              exact ⟨rfl, rfl⟩
          | ok threads =>
              rw [poll_once_run true maxPosts token webhook resp sinkOk now
                f n threads htok hst hth]
              by_cases he : (selectPosts n maxPosts threads).isEmpty = true
              · rw [if_pos he]; exact ⟨rfl, rfl⟩
              · rw [if_neg he]
                exact runLoopEnd_dry_frame _ _ _ _

/-- Whatever goes wrong inside a cycle — missing token, unreadable cursor
value, fetch failure, a formatting or delivery exception, in any mode —
an erroring `poll_once` never saves and leaves the state file unchanged. -/
theorem poll_once_error_frame (dryRun : Bool) (maxPosts : Int)
    (token webhook : Option String) (resp : Except PyErr PyJson)
    (sinkOk : PyJson → Bool) (now : String) (file : FileContent) (e : PyErr)
    (herr : (poll_once dryRun maxPosts token webhook resp sinkOk now
      file).result = .error e) :
    (poll_once dryRun maxPosts token webhook resp sinkOk now file).saved =
      false ∧
    (poll_once dryRun maxPosts token webhook resp sinkOk now file).file =
      file := by
  cases htok : envSet token with
  | false =>
      rw [poll_once_no_token dryRun maxPosts token webhook resp sinkOk now
        file htok]
      exact ⟨rfl, rfl⟩
  | true =>
      cases hst : stateLastSeen (load_state file) with
      | error e' =>
          rw [poll_once_state_error dryRun maxPosts token webhook resp
            sinkOk now file e' htok hst]
          exact ⟨rfl, rfl⟩
      | ok n =>
          cases hth : fetch_latest_threads resp with
          | error e' =>
              rw [poll_once_fetch_error dryRun maxPosts token webhook resp
                sinkOk now file n e' htok hst hth]
              exact ⟨rfl, rfl⟩
          | ok threads =>
              rw [poll_once_run dryRun maxPosts token webhook resp sinkOk
                now file n threads htok hst hth] at herr ⊢
              by_cases he : (selectPosts n maxPosts threads).isEmpty = true
              · rw [if_pos he] at herr
                exact absurd herr (by simp)
              · rw [if_neg he] at herr ⊢
                cases hle : (runLoop (dryRun || !envSet webhook) sinkOk
                    (selectPosts n maxPosts threads) 0 n).err with
                | some e' =>
                    rw [runLoopEnd_err dryRun _ _ _ _ e' hle]
                    exact ⟨rfl, rfl⟩
                | none =>
                    cases dryRun with
                    | true =>
                        rw [runLoopEnd_dry_ok _ _ _ _ hle] at herr
                        exact absurd herr (by simp)
                    | false =>
                        obtain ⟨m, hm⟩ := stateLastSeen_obj hst
                        rw [hm] at herr
                        rw [runLoopEnd_save _ m now file hle] at herr
                        exact absurd herr (by simp)

/-! ### Claims -/

/-- Claim C7: `load_state` never raises (it is a total function of the file
content): for a missing file it returns the zero state
`{last_seen_id: 0, last_run_utc: null}`; for an unreadable or corrupt
(unparseable) file it returns the zero state with the warning field set, and
its `last_seen_id` still reads as 0. -/
theorem claim_C7_load_state_failsafe :
    load_state .missing = zeroState ∧
    load_state .unreadable = warnState ∧
    stateLastSeen zeroState = .ok 0 ∧
    stateLastSeen warnState = .ok 0 ∧
    pyGet warnState "warning" =
      .ok (.str "state file unreadable; reset state") ∧
    pyGet zeroState "last_seen_id" = .ok (.int 0) := by
  exact ⟨rfl, rfl, rfl, rfl, rfl, rfl⟩

/-- Claim C9 (code bug): the claim says an unrecognized response shape with a
successful top-level request yields the empty sequence, but for the body
`{"data": 5}` — no list under `"threads"`, and `"data"` present but not a
dict — the fallback `(data.get("data") or {}).get("threads")` raises
`AttributeError`.  On a recognized list, non-dict elements are indeed
discarded. -/
theorem claim_C9_shape_fallback :
    fetch_latest_threads (.ok (.obj [("data", .int 5)])) =
      .error .attributeError ∧
    fetch_latest_threads (.ok (.obj [("threads",
        .arr [.int 1, .obj [("id", .int 2)], .null])])) =
      .ok [.obj [("id", .int 2)]] ∧
    fetch_latest_threads (.ok (.obj [("nothing", .null)])) = .ok [] := by
  exact ⟨rfl, rfl, rfl⟩

/-- Claim C6: whenever the selected delivery set is empty — nothing qualifies
after the cursor filter, or the cap truncates everything (e.g.
`maxPostsPerRun = 0`) — the cycle delivers nothing, writes no state, returns
count 0, and running the same cycle again changes nothing. -/
theorem claim_C6_empty_cycle_noop (dryRun : Bool) (maxPosts : Int)
    (token webhook : Option String) (resp : Except PyErr PyJson)
    (sinkOk : PyJson → Bool) (now : String) (file : FileContent)
    (n : Int) (threads : List PyJson)
    (htok : envSet token = true)
    (hn : stateLastSeen (load_state file) = .ok n)
    (hth : fetch_latest_threads resp = .ok threads)
    (hempty : selectPosts n maxPosts threads = []) :
    poll_once dryRun maxPosts token webhook resp sinkOk now file =
      ⟨.ok 0, [], [], false, file⟩ ∧
    poll_once dryRun maxPosts token webhook resp sinkOk now
        (poll_once dryRun maxPosts token webhook resp sinkOk now file).file =
      poll_once dryRun maxPosts token webhook resp sinkOk now file := by
  have h1 : poll_once dryRun maxPosts token webhook resp sinkOk now file =
      ⟨.ok 0, [], [], false, file⟩ := by
    rw [poll_once_run dryRun maxPosts token webhook resp sinkOk now file n
      threads htok hn hth, if_pos (List.isEmpty_iff.mpr hempty)]
  refine ⟨h1, ?_⟩
  simp only [h1]

/-- Witness for C6, at the spec's scenario `maxPostsPerRun = 0` with
qualifying items present (cursor 5, fetched ids 3, 6, 8, 7). -/
theorem claim_C6_witness :
    envSet (some "t") = true ∧
    stateLastSeen (load_state sampleFile) = .ok 5 ∧
    fetch_latest_threads (.ok sampleBody) =
      .ok [sampleThread 3, sampleThread 6, sampleThread 8, sampleThread 7] ∧
    selectPosts 5 0
      [sampleThread 3, sampleThread 6, sampleThread 8, sampleThread 7] = [] ∧
    (poll_once false 0 (some "t") (some "h") (.ok sampleBody)
        (fun _ => true) "T" sampleFile =
      ⟨.ok 0, [], [], false, sampleFile⟩ ∧
    poll_once false 0 (some "t") (some "h") (.ok sampleBody)
        (fun _ => true) "T"
        (poll_once false 0 (some "t") (some "h") (.ok sampleBody)
          (fun _ => true) "T" sampleFile).file =
      poll_once false 0 (some "t") (some "h") (.ok sampleBody)
        (fun _ => true) "T" sampleFile) :=
  ⟨rfl, rfl, rfl, rfl,
    claim_C6_empty_cycle_noop false 0 (some "t") (some "h") (.ok sampleBody)
      (fun _ => true) "T" sampleFile 5
      [sampleThread 3, sampleThread 6, sampleThread 8, sampleThread 7]
      rfl rfl rfl rfl⟩

/-- Claim C8: in dry-run (preview) mode `save_state` is never called and the
state file is unchanged, whatever is fetched or selected and however the
deliveries turn out, over any number of cycles. -/
theorem claim_C8_preview_isolation (maxPosts : Int)
    (token webhook : Option String) (inputs : List CycleInput)
    (file : FileContent) :
    (∀ (resp : Except PyErr PyJson) (sinkOk : PyJson → Bool) (now : String)
        (f : FileContent),
      (poll_once true maxPosts token webhook resp sinkOk now f).saved =
        false ∧
      (poll_once true maxPosts token webhook resp sinkOk now f).file = f) ∧
    poll_cycles true maxPosts token webhook inputs file = file := by
  have hcy := fun (resp : Except PyErr PyJson) (sinkOk : PyJson → Bool)
    (now : String) (f : FileContent) =>
    poll_once_dry_frame maxPosts token webhook resp sinkOk now f
  refine ⟨hcy, ?_⟩
  induction inputs generalizing file with
  | nil => rfl
  | cons c rest ih =>
      show poll_cycles true maxPosts token webhook rest
        (poll_once true maxPosts token webhook c.resp c.sinkOk c.now
          file).file = file
      rw [(hcy c.resp c.sinkOk c.now file).2, ih]

/-- Claim C4: the filter keeps exactly the items with an integer id strictly
greater than the loaded `last_seen_id`, and consequently no delivered item —
posted or printed, in any mode — has id equal to the cursor. -/
theorem claim_C4_strict_cursor_filter (dryRun : Bool) (maxPosts : Int)
    (token webhook : Option String) (resp : Except PyErr PyJson)
    (sinkOk : PyJson → Bool) (now : String) (file : FileContent)
    (n : Int) (threads : List PyJson)
    (hn : stateLastSeen (load_state file) = .ok n)
    (hth : fetch_latest_threads resp = .ok threads) :
    (∀ d, d ∈ qualifying n threads ↔
      d ∈ threads ∧ (candidateId d).isSome ∧ n < keyId d) ∧
    (∀ d, (d ∈ (poll_once dryRun maxPosts token webhook resp sinkOk now
          file).sent ∨
        d ∈ (poll_once dryRun maxPosts token webhook resp sinkOk now
          file).printed) →
      n < keyId d ∧ keyId d ≠ n) := by
  refine ⟨fun d => mem_qualifying, ?_⟩
  intro d hd
  cases htok : envSet token with
  | false =>
      rw [poll_once_no_token dryRun maxPosts token webhook resp sinkOk now
        file htok] at hd
      rcases hd with hd | hd <;> exact absurd hd (by simp)
  | true =>
      obtain ⟨hs, hp⟩ := poll_once_sent_printed dryRun maxPosts token webhook
        resp sinkOk now file n threads htok hn hth
      have hsel : d ∈ selectPosts n maxPosts threads := by
        rcases hd with hd | hd
        · rw [hs] at hd
          exact ((runLoop_sublists _ _ _ _ _).1).mem hd
        · rw [hp] at hd
          exact ((runLoop_sublists _ _ _ _ _).2).mem hd
      have hgt := selectPosts_gt hsel
      exact ⟨hgt, ne_of_gt hgt⟩

/-- Witness for C4, at the scenario cursor 5 and fetched ids 3, 6, 8, 7:
item 3 (id < cursor) and an item with id 5 (id = cursor) are never kept. -/
theorem claim_C4_witness :
    stateLastSeen (load_state sampleFile) = .ok 5 ∧
    fetch_latest_threads (.ok sampleBody) =
      .ok [sampleThread 3, sampleThread 6, sampleThread 8, sampleThread 7] ∧
    ((∀ d, d ∈ qualifying 5
        [sampleThread 3, sampleThread 6, sampleThread 8, sampleThread 7] ↔
      d ∈ [sampleThread 3, sampleThread 6, sampleThread 8, sampleThread 7] ∧
        (candidateId d).isSome ∧ 5 < keyId d) ∧
    (∀ d, (d ∈ (poll_once false 50 (some "t") (some "h") (.ok sampleBody)
          (fun _ => true) "T" sampleFile).sent ∨
        d ∈ (poll_once false 50 (some "t") (some "h") (.ok sampleBody)
          (fun _ => true) "T" sampleFile).printed) →
      5 < keyId d ∧ keyId d ≠ 5)) :=
  ⟨rfl, rfl,
    claim_C4_strict_cursor_filter false 50 (some "t") (some "h")
      (.ok sampleBody) (fun _ => true) "T" sampleFile 5
      [sampleThread 3, sampleThread 6, sampleThread 8, sampleThread 7]
      rfl rfl⟩

/-- Claim C5: under the data-model assumption that fetched ids are pairwise
distinct, the ids of the delivered sequence (posted or printed) are strictly
ascending, whatever order the source returned the items in. -/
theorem claim_C5_delivery_strictly_ascending (dryRun : Bool) (maxPosts : Int)
    (token webhook : Option String) (resp : Except PyErr PyJson)
    (sinkOk : PyJson → Bool) (now : String) (file : FileContent)
    (n : Int) (threads : List PyJson)
    (hn : stateLastSeen (load_state file) = .ok n)
    (hth : fetch_latest_threads resp = .ok threads)
    (hnodup : (threads.filterMap candidateId).Nodup) :
    ((poll_once dryRun maxPosts token webhook resp sinkOk now
        file).sent.map keyId).Pairwise (· < ·) ∧
    ((poll_once dryRun maxPosts token webhook resp sinkOk now
        file).printed.map keyId).Pairwise (· < ·) := by
  have hq : ((qualifying n threads).map keyId).Nodup :=
    List.Nodup.sublist (qualifying_keys_sublist n threads) hnodup
  have hstrict : (sortById (qualifying n threads)).Pairwise
      (fun a b => keyId a < keyId b) :=
    pairwise_lt_of_sorted_nodup (sortById_sorted _) (sortById_keys_nodup hq)
  have hsel : (selectPosts n maxPosts threads).Pairwise
      (fun a b => keyId a < keyId b) :=
    List.Pairwise.sublist (pySlice_sublist _ _) hstrict
  cases htok : envSet token with
  | false =>
      rw [poll_once_no_token dryRun maxPosts token webhook resp sinkOk now
        file htok]
      simp
  | true =>
      obtain ⟨hs, hp⟩ := poll_once_sent_printed dryRun maxPosts token webhook
        resp sinkOk now file n threads htok hn hth
      rw [hs, hp]
      constructor
      · exact List.pairwise_map.mpr
          (List.Pairwise.sublist (runLoop_sublists _ _ _ _ _).1 hsel)
      · exact List.pairwise_map.mpr
          (List.Pairwise.sublist (runLoop_sublists _ _ _ _ _).2 hsel)

/-- Witness for C5: fetched out of order as ids 3, 6, 8, 7, pairwise
distinct; delivered ids come out strictly ascending. -/
theorem claim_C5_witness :
    stateLastSeen (load_state sampleFile) = .ok 5 ∧
    fetch_latest_threads (.ok sampleBody) =
      .ok [sampleThread 3, sampleThread 6, sampleThread 8, sampleThread 7] ∧
    ([sampleThread 3, sampleThread 6, sampleThread 8,
        sampleThread 7].filterMap candidateId).Nodup ∧
    (((poll_once false 50 (some "t") (some "h") (.ok sampleBody)
        (fun _ => true) "T" sampleFile).sent.map keyId).Pairwise (· < ·) ∧
    ((poll_once false 50 (some "t") (some "h") (.ok sampleBody)
        (fun _ => true) "T" sampleFile).printed.map keyId).Pairwise
      (· < ·)) :=
  ⟨rfl, rfl, by decide,
    claim_C5_delivery_strictly_ascending false 50 (some "t") (some "h")
      (.ok sampleBody) (fun _ => true) "T" sampleFile 5
      [sampleThread 3, sampleThread 6, sampleThread 8, sampleThread 7]
      rfl rfl (by decide)⟩

/-- Claim C1: whenever a cycle's run raises — a formatting or delivery
exception included — nothing is persisted and the state file is unchanged,
so the next cycle starts from the old cursor (at-least-once); in particular,
when every selected item formats and posting one of them to Slack raises,
`poll_once` raises `RuntimeError` and the `sent` list is exactly the prefix
of items delivered before the failing one. -/
theorem claim_C1_commit_discipline (maxPosts : Int)
    (token webhook : Option String) (resp : Except PyErr PyJson)
    (sinkOk : PyJson → Bool) (now : String) (file : FileContent)
    (n : Int) (threads : List PyJson)
    (htok : envSet token = true)
    (hhook : envSet webhook = true)
    (hn : stateLastSeen (load_state file) = .ok n)
    (hth : fetch_latest_threads resp = .ok threads)
    (hfmt : ∀ d ∈ selectPosts n maxPosts threads,
      format_slack_message d = .ok ())
    (hfail : ∃ d ∈ selectPosts n maxPosts threads, sinkOk d = false) :
    (∀ (dr : Bool) (mp : Int) (tk wh : Option String)
        (rp : Except PyErr PyJson) (sk : PyJson → Bool) (nw : String)
        (f : FileContent) (e : PyErr),
      (poll_once dr mp tk wh rp sk nw f).result = .error e →
      (poll_once dr mp tk wh rp sk nw f).saved = false ∧
      (poll_once dr mp tk wh rp sk nw f).file = f) ∧
    (poll_once false maxPosts token webhook resp sinkOk now file).saved =
      false ∧
    (poll_once false maxPosts token webhook resp sinkOk now file).file =
      file ∧
    (poll_once false maxPosts token webhook resp sinkOk now file).result =
      .error .runtimeError ∧
    (poll_once false maxPosts token webhook resp sinkOk now file).sent =
      (selectPosts n maxPosts threads).takeWhile sinkOk ∧
    (poll_once false maxPosts token webhook resp sinkOk now file).printed =
      [] := by
  refine ⟨fun dr mp tk wh rp sk nw f e herr =>
    poll_once_error_frame dr mp tk wh rp sk nw f e herr, ?_⟩
  have hid : ∀ d ∈ selectPosts n maxPosts threads,
      pyItemId d = .ok (keyId d) := fun d hd => selectPosts_pyItemId hd
  have hne : ¬(selectPosts n maxPosts threads).isEmpty = true := by
    rcases hfail with ⟨d, hd, -⟩
    intro h
    rw [List.isEmpty_iff.mp h] at hd
    exact absurd hd (List.not_mem_nil d)
  rw [poll_once_run false maxPosts token webhook resp sinkOk now file n
    threads htok hn hth, if_neg hne]
  have hpm : (false || !envSet webhook) = false := by rw [hhook]; rfl
  rw [hpm, runLoop_slack_fail sinkOk _ 0 n hfmt hid hfail,
    runLoopEnd_err false _ _ _ _ .runtimeError rfl]
  exact ⟨rfl, rfl, rfl, rfl, rfl⟩

/-- Witness for C1, at the spec's scenario: cursor 5, selected items 6, 7, 8,
all of which format; delivery succeeds for id 6 and raises at id 7.  Item 6
was sent, the run errors, nothing is saved, and the file still holds
cursor 5. -/
theorem claim_C1_witness :
    envSet (some "t") = true ∧
    envSet (some "h") = true ∧
    stateLastSeen (load_state sampleFile) = .ok 5 ∧
    fetch_latest_threads (.ok sampleBody) =
      .ok [sampleThread 3, sampleThread 6, sampleThread 8, sampleThread 7] ∧
    (∀ d ∈ selectPosts 5 50
        [sampleThread 3, sampleThread 6, sampleThread 8, sampleThread 7],
      format_slack_message d = .ok ()) ∧
    (∃ d ∈ selectPosts 5 50
        [sampleThread 3, sampleThread 6, sampleThread 8, sampleThread 7],
      (fun x => decide (keyId x < 7)) d = false) ∧
    ((∀ (dr : Bool) (mp : Int) (tk wh : Option String)
        (rp : Except PyErr PyJson) (sk : PyJson → Bool) (nw : String)
        (f : FileContent) (e : PyErr),
      (poll_once dr mp tk wh rp sk nw f).result = .error e →
      (poll_once dr mp tk wh rp sk nw f).saved = false ∧
      (poll_once dr mp tk wh rp sk nw f).file = f) ∧
    (poll_once false 50 (some "t") (some "h") (.ok sampleBody)
        (fun x => decide (keyId x < 7)) "T" sampleFile).saved = false ∧
    (poll_once false 50 (some "t") (some "h") (.ok sampleBody)
        (fun x => decide (keyId x < 7)) "T" sampleFile).file = sampleFile ∧
    (poll_once false 50 (some "t") (some "h") (.ok sampleBody)
        (fun x => decide (keyId x < 7)) "T" sampleFile).result =
      .error .runtimeError ∧
    (poll_once false 50 (some "t") (some "h") (.ok sampleBody)
        (fun x => decide (keyId x < 7)) "T" sampleFile).sent =
      (selectPosts 5 50
        [sampleThread 3, sampleThread 6, sampleThread 8,
          sampleThread 7]).takeWhile (fun x => decide (keyId x < 7)) ∧
    (poll_once false 50 (some "t") (some "h") (.ok sampleBody)
        (fun x => decide (keyId x < 7)) "T" sampleFile).printed = []) ∧
    (poll_once false 50 (some "t") (some "h") (.ok sampleBody)
        (fun x => decide (keyId x < 7)) "T" sampleFile).sent =
      [sampleThread 6] := by
  have hfmt : ∀ d ∈ selectPosts 5 50
      [sampleThread 3, sampleThread 6, sampleThread 8, sampleThread 7],
      format_slack_message d = .ok () := by
    intro d hd
    have hd' : d ∈ [sampleThread 6, sampleThread 7, sampleThread 8] := hd
    simp only [List.mem_cons, List.not_mem_nil, or_false] at hd'
    rcases hd' with rfl | rfl | rfl <;> rfl
  have hfail : ∃ d ∈ selectPosts 5 50
      [sampleThread 3, sampleThread 6, sampleThread 8, sampleThread 7],
      (fun x => decide (keyId x < 7)) d = false :=
    ⟨sampleThread 7, List.mem_cons_of_mem _ (List.mem_cons_self _ _), rfl⟩
  exact ⟨rfl, rfl, rfl, rfl, hfmt, hfail,
    claim_C1_commit_discipline 50 (some "t") (some "h") (.ok sampleBody)
      (fun x => decide (keyId x < 7)) "T" sampleFile 5
      [sampleThread 3, sampleThread 6, sampleThread 8, sampleThread 7]
      rfl rfl rfl rfl hfmt hfail,
    rfl⟩

/-- Claim C3: whenever a cycle persists state, the written `last_seen_id` is
at least the value loaded at the start of that cycle — so across any sequence
of cycles the persisted cursor never decreases. -/
theorem claim_C3_monotone_cursor (dryRun : Bool) (maxPosts : Int)
    (token webhook : Option String) (resp : Except PyErr PyJson)
    (sinkOk : PyJson → Bool) (now : String) (file : FileContent) (n : Int)
    (hn : stateLastSeen (load_state file) = .ok n)
    (hsaved : (poll_once dryRun maxPosts token webhook resp sinkOk now
      file).saved = true) :
    ∃ st M,
      (poll_once dryRun maxPosts token webhook resp sinkOk now file).file =
        .parsed st ∧
      stateLastSeen st = .ok M ∧ n ≤ M := by
  cases dryRun with
  | true =>
      rw [(poll_once_dry_frame maxPosts token webhook resp sinkOk now
        file).1] at hsaved
      exact absurd hsaved (by simp)
  | false =>
      cases htok : envSet token with
      | false =>
          rw [poll_once_no_token false maxPosts token webhook resp sinkOk now
            file htok] at hsaved
          exact absurd hsaved (by simp)
      | true =>
          cases hth : fetch_latest_threads resp with
          | error e =>
              rw [poll_once_fetch_error false maxPosts token webhook resp
                sinkOk now file n e htok hn hth] at hsaved
              exact absurd hsaved (by simp)
          | ok threads =>
              rw [poll_once_run false maxPosts token webhook resp sinkOk now
                file n threads htok hn hth] at hsaved ⊢
              by_cases he :
                  (selectPosts n maxPosts threads).isEmpty = true
              · rw [if_pos he] at hsaved
                exact absurd hsaved (by simp)
              · rw [if_neg he] at hsaved ⊢
                obtain ⟨m, hm⟩ := stateLastSeen_obj hn
                rw [hm] at hsaved ⊢
                cases herr : (runLoop (false || !envSet webhook) sinkOk
                    (selectPosts n maxPosts threads) 0 n).err with
                | some e =>
                    rw [runLoopEnd_err false _ _ _ _ e herr] at hsaved
                    exact absurd hsaved (by simp)
                | none =>
                    rw [runLoopEnd_save _ m now file herr]
                    exact ⟨_, _, rfl, stateLastSeen_saved m _ now,
                      runLoop_maxId_le _ _ _ _ _⟩

/-- Witness for C3: a successful run from cursor 5 saves, and the saved
cursor (7 here, truncated under the cap 2) is at least 5. -/
theorem claim_C3_witness :
    stateLastSeen (load_state sampleFile) = .ok 5 ∧
    (poll_once false 2 (some "t") (some "h") (.ok sampleBody)
      (fun _ => true) "T" sampleFile).saved = true ∧
    (∃ st M,
      (poll_once false 2 (some "t") (some "h") (.ok sampleBody)
        (fun _ => true) "T" sampleFile).file = .parsed st ∧
      stateLastSeen st = .ok M ∧ 5 ≤ M) :=
  ⟨rfl, rfl,
    claim_C3_monotone_cursor false 2 (some "t") (some "h") (.ok sampleBody)
      (fun _ => true) "T" sampleFile 5 rfl rfl⟩

/-- Claim C10: with the webhook URL unset, dry-run off and every selected
item formatting, every selected item is printed (none posted), yet the cycle
still returns the printed count, saves, and advances the persisted cursor
past every printed id — unlike true dry-run, which never saves.  Such a run
permanently consumes the printed items. -/
theorem claim_C10_missing_webhook_still_persists (maxPosts : Int)
    (token : Option String) (resp : Except PyErr PyJson)
    (sinkOk : PyJson → Bool) (now : String) (file : FileContent)
    (n : Int) (threads : List PyJson)
    (htok : envSet token = true)
    (hn : stateLastSeen (load_state file) = .ok n)
    (hth : fetch_latest_threads resp = .ok threads)
    (hfmt : ∀ d ∈ selectPosts n maxPosts threads,
      format_slack_message d = .ok ())
    (hne : selectPosts n maxPosts threads ≠ []) :
    (poll_once false maxPosts token none resp sinkOk now file).printed =
      selectPosts n maxPosts threads ∧
    (poll_once false maxPosts token none resp sinkOk now file).sent = [] ∧
    (poll_once false maxPosts token none resp sinkOk now file).saved =
      true ∧
    (poll_once false maxPosts token none resp sinkOk now file).result =
      .ok (selectPosts n maxPosts threads).length ∧
    (∃ st M,
      (poll_once false maxPosts token none resp sinkOk now file).file =
        .parsed st ∧
      stateLastSeen st = .ok M ∧
      ∀ d ∈ selectPosts n maxPosts threads, keyId d ≤ M) ∧
    (poll_once true maxPosts token none resp sinkOk now file).saved =
      false := by
  have hid : ∀ d ∈ selectPosts n maxPosts threads,
      pyItemId d = .ok (keyId d) := fun d hd => selectPosts_pyItemId hd
  have hne' : ¬(selectPosts n maxPosts threads).isEmpty = true :=
    fun h => hne (List.isEmpty_iff.mp h)
  rw [poll_once_run false maxPosts token none resp sinkOk now file n
    threads htok hn hth, if_neg hne']
  have hpm : (false || !envSet (none : Option String)) = true := rfl
  rw [hpm, runLoop_print_ok true sinkOk _ 0 n rfl hfmt hid]
  obtain ⟨m, hm⟩ := stateLastSeen_obj hn
  rw [hm, runLoopEnd_save _ m now file rfl]
  refine ⟨rfl, rfl, rfl, by rw [Nat.zero_add], ?_,
    (poll_once_dry_frame maxPosts token none resp sinkOk now file).1⟩
  exact ⟨_, _, rfl, stateLastSeen_saved m _ now,
    fun d hd => foldMax_ge _ _ d hd⟩

/-- Witness for C10: webhook absent, cursor 5, fetched ids 3, 6, 8, 7;
all three new items are printed, none posted, and the cursor is persisted
(at 8); the same run with dry-run on saves nothing. -/
theorem claim_C10_witness :
    envSet (some "t") = true ∧
    stateLastSeen (load_state sampleFile) = .ok 5 ∧
    fetch_latest_threads (.ok sampleBody) =
      .ok [sampleThread 3, sampleThread 6, sampleThread 8, sampleThread 7] ∧
    (∀ d ∈ selectPosts 5 50
        [sampleThread 3, sampleThread 6, sampleThread 8, sampleThread 7],
      format_slack_message d = .ok ()) ∧
    selectPosts 5 50
      [sampleThread 3, sampleThread 6, sampleThread 8, sampleThread 7] ≠
      [] ∧
    ((poll_once false 50 (some "t") none (.ok sampleBody)
        (fun _ => false) "T" sampleFile).printed =
      selectPosts 5 50
        [sampleThread 3, sampleThread 6, sampleThread 8, sampleThread 7] ∧
    (poll_once false 50 (some "t") none (.ok sampleBody)
        (fun _ => false) "T" sampleFile).sent = [] ∧
    (poll_once false 50 (some "t") none (.ok sampleBody)
        (fun _ => false) "T" sampleFile).saved = true ∧
    (poll_once false 50 (some "t") none (.ok sampleBody)
        (fun _ => false) "T" sampleFile).result =
      .ok (selectPosts 5 50
        [sampleThread 3, sampleThread 6, sampleThread 8,
          sampleThread 7]).length ∧
    (∃ st M,
      (poll_once false 50 (some "t") none (.ok sampleBody)
        (fun _ => false) "T" sampleFile).file = .parsed st ∧
      stateLastSeen st = .ok M ∧
      ∀ d ∈ selectPosts 5 50
        [sampleThread 3, sampleThread 6, sampleThread 8, sampleThread 7],
        keyId d ≤ M) ∧
    (poll_once true 50 (some "t") none (.ok sampleBody)
        (fun _ => false) "T" sampleFile).saved = false) := by
  have hfmt : ∀ d ∈ selectPosts 5 50
      [sampleThread 3, sampleThread 6, sampleThread 8, sampleThread 7],
      format_slack_message d = .ok () := by
    intro d hd
    have hd' : d ∈ [sampleThread 6, sampleThread 7, sampleThread 8] := hd
    simp only [List.mem_cons, List.not_mem_nil, or_false] at hd'
    rcases hd' with rfl | rfl | rfl <;> rfl
  exact ⟨rfl, rfl, rfl, hfmt, List.cons_ne_nil _ _,
    claim_C10_missing_webhook_still_persists 50 (some "t") (.ok sampleBody)
      (fun _ => false) "T" sampleFile 5
      [sampleThread 3, sampleThread 6, sampleThread 8, sampleThread 7]
      rfl rfl rfl hfmt (List.cons_ne_nil _ _)⟩

/-- Claim C2: with every selected item formatting, all deliveries
succeeding and a nonnegative cap, the posted sequence is exactly the prefix
of the qualifying items sorted ascending by id, of length at most
`maxPostsPerRun` — so the smallest qualifying ids (every delivered id is ≤
every truncated id) — and when anything was delivered the persisted cursor
equals the maximum delivered id, not the maximum fetched id. -/
theorem claim_C2_cap_prefix_cursor (maxPosts : Int)
    (token webhook : Option String) (resp : Except PyErr PyJson)
    (sinkOk : PyJson → Bool) (now : String) (file : FileContent)
    (n : Int) (threads : List PyJson)
    (htok : envSet token = true)
    (hhook : envSet webhook = true)
    (hn : stateLastSeen (load_state file) = .ok n)
    (hth : fetch_latest_threads resp = .ok threads)
    (hcap : 0 ≤ maxPosts)
    (hfmt : ∀ d ∈ selectPosts n maxPosts threads,
      format_slack_message d = .ok ())
    (hsink : ∀ d, sinkOk d = true) :
    (poll_once false maxPosts token webhook resp sinkOk now file).sent =
      (sortById (qualifying n threads)).take maxPosts.toNat ∧
    (((poll_once false maxPosts token webhook resp sinkOk now
        file).sent.length : Int) ≤ maxPosts) ∧
    (∀ a ∈ (poll_once false maxPosts token webhook resp sinkOk now
        file).sent,
      ∀ b ∈ (sortById (qualifying n threads)).drop maxPosts.toNat,
      keyId a ≤ keyId b) ∧
    ((poll_once false maxPosts token webhook resp sinkOk now file).sent ≠
        [] →
      ∃ st M,
        (poll_once false maxPosts token webhook resp sinkOk now
          file).file = .parsed st ∧
        stateLastSeen st = .ok M ∧
        M ∈ ((poll_once false maxPosts token webhook resp sinkOk now
          file).sent.map keyId) ∧
        ∀ i ∈ ((poll_once false maxPosts token webhook resp sinkOk now
          file).sent.map keyId), i ≤ M) := by
  have hsel_take : selectPosts n maxPosts threads =
      (sortById (qualifying n threads)).take maxPosts.toNat :=
    pySlice_nonneg _ hcap
  have hlen : (selectPosts n maxPosts threads).length ≤ maxPosts.toNat := by
    rw [hsel_take]; exact List.length_take_le _ _
  have hcast := Int.toNat_of_nonneg hcap
  by_cases he : (selectPosts n maxPosts threads).isEmpty = true
  · have hnil := List.isEmpty_iff.mp he
    rw [poll_once_run false maxPosts token webhook resp sinkOk now file n
      threads htok hn hth, if_pos he]
    refine ⟨by rw [← hsel_take, hnil], by simpa using hcap, ?_, ?_⟩
    · intro a ha
      exact absurd ha (List.not_mem_nil a)
    · intro h
      exact absurd rfl h
  · rw [poll_once_run false maxPosts token webhook resp sinkOk now file n
      threads htok hn hth, if_neg he]
    have hpm : (false || !envSet webhook) = false := by rw [hhook]; rfl
    have hid : ∀ d ∈ selectPosts n maxPosts threads,
        pyItemId d = .ok (keyId d) := fun d hd => selectPosts_pyItemId hd
    rw [hpm, runLoop_slack_ok sinkOk _ 0 n hfmt (fun d _ => hsink d) hid]
    obtain ⟨m, hm⟩ := stateLastSeen_obj hn
    rw [hm, runLoopEnd_save _ m now file rfl]
    refine ⟨hsel_take,
      by show ((selectPosts n maxPosts threads).length : Int) ≤ maxPosts
         omega, ?_, ?_⟩
    · intro a ha b hb
      rw [hsel_take] at ha
      exact take_le_drop (sortById_sorted _) a ha b hb
    · intro hne
      refine ⟨_, foldMax (selectPosts n maxPosts threads) n, rfl,
        stateLastSeen_saved m _ now, ?_, ?_⟩
      · rcases foldMax_eq_or_mem (selectPosts n maxPosts threads) n with
          heq | ⟨d, hd, heq⟩
        · rcases List.exists_mem_of_ne_nil _ hne with ⟨d0, hd0⟩
          have h1 := foldMax_ge (selectPosts n maxPosts threads) n d0 hd0
          have h2 := selectPosts_gt hd0
          rw [heq] at h1
          omega
        · exact List.mem_map.mpr ⟨d, hd, heq.symm⟩
      · intro i hi
        rcases List.mem_map.mp hi with ⟨d, hd, hkey⟩
        rw [← hkey]
        exact foldMax_ge _ _ d hd

/-- Witness for C2, at the spec's scenario: cursor 5, fetched ids
`[3, 6, 8, 7]`, cap 2 → items 6 then 7 posted, in that order, and the saved
cursor is 7, not 8. -/
theorem claim_C2_witness :
    envSet (some "t") = true ∧
    envSet (some "h") = true ∧
    stateLastSeen (load_state sampleFile) = .ok 5 ∧
    fetch_latest_threads (.ok sampleBody) =
      .ok [sampleThread 3, sampleThread 6, sampleThread 8, sampleThread 7] ∧
    (0 : Int) ≤ 2 ∧
    (∀ d ∈ selectPosts 5 2
        [sampleThread 3, sampleThread 6, sampleThread 8, sampleThread 7],
      format_slack_message d = .ok ()) ∧
    ((poll_once false 2 (some "t") (some "h") (.ok sampleBody)
        (fun _ => true) "T" sampleFile).sent =
      (sortById (qualifying 5
        [sampleThread 3, sampleThread 6, sampleThread 8,
          sampleThread 7])).take (2 : Int).toNat ∧
    (((poll_once false 2 (some "t") (some "h") (.ok sampleBody)
        (fun _ => true) "T" sampleFile).sent.length : Int) ≤ 2) ∧
    (∀ a ∈ (poll_once false 2 (some "t") (some "h") (.ok sampleBody)
        (fun _ => true) "T" sampleFile).sent,
      ∀ b ∈ (sortById (qualifying 5
        [sampleThread 3, sampleThread 6, sampleThread 8,
          sampleThread 7])).drop (2 : Int).toNat,
      keyId a ≤ keyId b) ∧
    ((poll_once false 2 (some "t") (some "h") (.ok sampleBody)
        (fun _ => true) "T" sampleFile).sent ≠ [] →
      ∃ st M,
        (poll_once false 2 (some "t") (some "h") (.ok sampleBody)
          (fun _ => true) "T" sampleFile).file = .parsed st ∧
        stateLastSeen st = .ok M ∧
        M ∈ ((poll_once false 2 (some "t") (some "h") (.ok sampleBody)
          (fun _ => true) "T" sampleFile).sent.map keyId) ∧
        ∀ i ∈ ((poll_once false 2 (some "t") (some "h") (.ok sampleBody)
          (fun _ => true) "T" sampleFile).sent.map keyId), i ≤ M)) ∧
    (poll_once false 2 (some "t") (some "h") (.ok sampleBody)
        (fun _ => true) "T" sampleFile).sent.map keyId = [6, 7] ∧
    (poll_once false 2 (some "t") (some "h") (.ok sampleBody)
        (fun _ => true) "T" sampleFile).file =
      .parsed (.obj [("last_seen_id", .int 7),
        ("last_run_utc", .str "T")]) := by
  have hfmt : ∀ d ∈ selectPosts 5 2
      [sampleThread 3, sampleThread 6, sampleThread 8, sampleThread 7],
      format_slack_message d = .ok () := by
    intro d hd
    have hd' : d ∈ [sampleThread 6, sampleThread 7] := hd
    simp only [List.mem_cons, List.not_mem_nil, or_false] at hd'
    rcases hd' with rfl | rfl <;> rfl
  exact ⟨rfl, rfl, rfl, rfl, by decide, hfmt,
    claim_C2_cap_prefix_cursor 2 (some "t") (some "h") (.ok sampleBody)
      (fun _ => true) "T" sampleFile 5
      [sampleThread 3, sampleThread 6, sampleThread 8, sampleThread 7]
      rfl rfl rfl rfl (by decide) hfmt (fun _ => rfl),
    rfl, rfl⟩

end EdPoll
